import Mathlib

/-!
Shallow embedding of the Wayfare trip-planning client code.

Numbers that are JavaScript floats are modelled as rationals (`ℚ`); JS
`Math.ceil` is `Int.ceil`, `Math.max` is `max`.  A form field read with
`parseFloat(el.value)` is modelled as an `Option ℚ`: `none` stands for an
empty or unparseable field (`NaN` in JS).  The JS idiom `parseFloat(x) || d`
falls back to `d` both when the parse fails and when the parsed value is `0`
(both are falsy), which `orDefault` reproduces.
-/

namespace Wayfare

/-- The values of the `transportationType` select element
(src/unnamed/part_001, the HTML page): `empty` is the "Select Type"
placeholder option. -/
inductive TransportType where
  | car | motorcycle | bicycle | walking | bus | train | plane | sea | empty
deriving DecidableEq, Repr

/-- JS `parseFloat(el.value) || d`: `none` models an unparseable field (NaN);
a parsed `0` is falsy and also falls back to the default `d`. -/
def orDefault (v : Option ℚ) (d : ℚ) : ℚ :=
  match v with
  | none => d
  | some x => if x = 0 then d else x

/-- JS `el.value || d` for a string-valued field: the empty string is falsy. -/
def orDefaultStr (v : String) (d : String) : String :=
  if v = "" then d else v

/-- The DOM form fields read by `VehicleFormManager`
(src/wayfare/static/js/vehicleForms.js) together with the `passengers`
field read by `displayCostDetails` (src/wayfare/static/app.js). -/
structure FormInputs where
  transportationType : TransportType
  carModel : String
  engineVolume : Option ℚ
  fuelConsumption : Option ℚ
  fuelType : String
  tankCapacity : Option ℚ
  initialFuel : Option ℚ
  engineCC : Option ℚ
  motorcycleFuelConsumption : Option ℚ
  motorcycleTankCapacity : Option ℚ
  motorcycleInitialFuel : Option ℚ
  motorcycleFuelType : String
  passengers : ℤ
deriving Repr

/-- Return value of `VehicleFormManager.getCarSpecifications`. -/
structure CarSpecifications where
  model : String
  engine_volume : ℚ
  fuel_consumption : ℚ
  fuel_type : String
  tank_capacity : ℚ
  initial_fuel : ℚ
  base_mass : ℚ
  passenger_mass : ℚ
deriving DecidableEq, Repr

/-- Return value of `VehicleFormManager.getMotorcycleSpecifications`. -/
structure MotorcycleSpecifications where
  engine_cc : ℚ
  fuel_economy : ℚ
  tank_capacity : ℚ
  initial_fuel : ℚ
  fuel_type : String
  base_mass : ℚ
  passenger_mass : ℚ
deriving DecidableEq, Repr

/-- `VehicleFormManager.getCarSpecifications`
(src/wayfare/static/js/vehicleForms.js lines 46-57). -/
def getCarSpecifications (f : FormInputs) : CarSpecifications :=
  { model := orDefaultStr f.carModel "Standard 1.6L"
    engine_volume := orDefault f.engineVolume 1.6
    fuel_consumption := orDefault f.fuelConsumption 11.0
    fuel_type := orDefaultStr f.fuelType "gasoline"
    tank_capacity := orDefault f.tankCapacity 50.0
    initial_fuel := orDefault f.initialFuel 25.0
    base_mass := 1200.0
    passenger_mass := 75.0 }

/-- `VehicleFormManager.getMotorcycleSpecifications`
(src/wayfare/static/js/vehicleForms.js lines 59-69). -/
def getMotorcycleSpecifications (f : FormInputs) : MotorcycleSpecifications :=
  { engine_cc := orDefault f.engineCC 125
    fuel_economy := orDefault f.motorcycleFuelConsumption 45
    tank_capacity := orDefault f.motorcycleTankCapacity 10.0
    initial_fuel := orDefault f.motorcycleInitialFuel 5.0
    fuel_type := orDefaultStr f.motorcycleFuelType "92"
    base_mass := 150.0
    passenger_mass := 75.0 }

/-- The object returned by `VehicleFormManager.getVehicleSpecifications`
is either a car or a motorcycle specification. -/
inductive VehicleSpecifications where
  | car (s : CarSpecifications)
  | motorcycle (s : MotorcycleSpecifications)
deriving DecidableEq, Repr

/-- The `initial_fuel` field of the returned specification object. -/
def VehicleSpecifications.initial_fuel : VehicleSpecifications → ℚ
  | .car s => s.initial_fuel
  | .motorcycle s => s.initial_fuel

/-- The `tank_capacity` field of the returned specification object. -/
def VehicleSpecifications.tank_capacity : VehicleSpecifications → ℚ
  | .car s => s.tank_capacity
  | .motorcycle s => s.tank_capacity

/-- `VehicleFormManager.getVehicleSpecifications`
(src/wayfare/static/js/vehicleForms.js lines 35-44): switches on the
`transportationType` select value and returns `null` (`none`) for every
type other than car and motorcycle. -/
def getVehicleSpecifications (f : FormInputs) : Option VehicleSpecifications :=
  match f.transportationType with
  | .car => some (.car (getCarSpecifications f))
  | .motorcycle => some (.motorcycle (getMotorcycleSpecifications f))
  | _ => none

/-- `VehicleFormManager.calculateFuelNeeded(distance, type)`
(src/wayfare/static/js/vehicleForms.js lines 71-84). -/
def calculateFuelNeeded (f : FormInputs) (distance : ℚ) (ty : TransportType) : ℚ :=
  match ty with
  | .car => distance / 100 * orDefault f.fuelConsumption 11.0
  | .motorcycle => distance / orDefault f.motorcycleFuelConsumption 45
  | _ => 0

/-- `VehicleFormManager.calculateRefuelingStops(distance, type)`
(src/wayfare/static/js/vehicleForms.js lines 86-93). -/
def calculateRefuelingStops (f : FormInputs) (distance : ℚ) (ty : TransportType) : ℤ :=
  match getVehicleSpecifications f with
  | none => 0
  | some specs =>
    let fuelNeeded := calculateFuelNeeded f distance ty
    let remainingFuel := specs.initial_fuel - fuelNeeded
    max 0 ⌈-remainingFuel / specs.tank_capacity⌉

/-- Numeric fields of the object returned by `calculateMotorcycleRoute`
(src/unnamed/part_001 lines 590-608).  The JS function formats
`fuelConsumption` and `remainingFuel` with `.toFixed(2)` and appends `"cc"`
to the engine size; the numeric values before formatting are modelled. -/
structure MotorcycleRouteDetails where
  distance : ℚ
  fuelConsumption : ℚ
  remainingFuel : ℚ
  refuelingStops : ℤ
  engineCC : ℚ
  fuelType : String
deriving Repr

/-- `calculateMotorcycleRoute` (src/unnamed/part_001 lines 590-608): the
distance is a hard-coded 100 km placeholder. -/
def calculateMotorcycleRoute (engineCC fuelEconomy tankCapacity currentFuel : ℚ)
    (fuelType : String) : MotorcycleRouteDetails :=
  let distance : ℚ := 100
  let fuelNeeded := distance / fuelEconomy
  let remainingFuel := currentFuel - fuelNeeded
  let refuelingStops := max 0 ⌈-remainingFuel / tankCapacity⌉
  { distance := distance
    fuelConsumption := fuelNeeded
    remainingFuel := max 0 remainingFuel
    refuelingStops := refuelingStops
    engineCC := engineCC
    fuelType := fuelType }

/-! ### Cost breakdown (`displayCostDetails`, src/wayfare/static/app.js lines 367-463) -/

/-- The ten keys of the `costTypes` object in `displayCostDetails`
(src/wayfare/static/app.js lines 372-383). -/
inductive CostCategory where
  | fuel_cost | ticket_cost | food_cost | water_cost | accommodation_cost
  | toll_cost | parking_cost | maintenance_cost | rest_stop_cost | other_cost
deriving DecidableEq, Repr

/-- The flattened `costs` object of the API response consumed by
`displayCostDetails`.  `none` models an absent, `null`, or `undefined`
field.  `fuel_consumption` and `refueling_stops` are present in the
response but are not cost categories (not keys of `costTypes`). -/
structure Costs where
  fuel_cost : Option ℚ := none
  ticket_cost : Option ℚ := none
  food_cost : Option ℚ := none
  water_cost : Option ℚ := none
  accommodation_cost : Option ℚ := none
  toll_cost : Option ℚ := none
  parking_cost : Option ℚ := none
  maintenance_cost : Option ℚ := none
  rest_stop_cost : Option ℚ := none
  other_cost : Option ℚ := none
  total_cost : Option ℚ := none
  currency : Option String := none
  fuel_consumption : Option ℚ := none
  refueling_stops : Option ℤ := none
deriving Repr

/-- The cost-category field of the response object named by a
`costTypes` key. -/
def Costs.get (c : Costs) : CostCategory → Option ℚ
  | .fuel_cost => c.fuel_cost
  | .ticket_cost => c.ticket_cost
  | .food_cost => c.food_cost
  | .water_cost => c.water_cost
  | .accommodation_cost => c.accommodation_cost
  | .toll_cost => c.toll_cost
  | .parking_cost => c.parking_cost
  | .maintenance_cost => c.maintenance_cost
  | .rest_stop_cost => c.rest_stop_cost
  | .other_cost => c.other_cost

/-- All `costTypes` keys, in the declaration order of the `costTypes`
object (the iteration order of `Object.entries` over the response object
is its serialization order; only the resulting set of items and the final
sort by amount are observable in the claims). -/
def allCostCategories : List CostCategory :=
  [.fuel_cost, .ticket_cost, .food_cost, .water_cost, .accommodation_cost,
   .toll_cost, .parking_cost, .maintenance_cost, .rest_stop_cost, .other_cost]

/-- One element of the `costItems` array: `{ category, amount, key }`
(the display name `category` is a fixed function of `key`, so only the
key and the amount are modelled). -/
structure CostItem where
  category : CostCategory
  amount : ℚ
deriving DecidableEq, Repr

/-- The `costItems` array before sorting
(src/wayfare/static/app.js lines 386-399): keep a `key in costTypes`
entry whose value is neither `null`, `undefined`, nor `0`.
(`total_cost`, `currency`, `fuel_consumption` and `refueling_stops` are
not `costTypes` keys and are excluded by the `key in costTypes` test.) -/
def costItems (c : Costs) : List CostItem :=
  allCostCategories.filterMap fun k =>
    match c.get k with
    | none => none
    | some v => if v = 0 then none else some ⟨k, v⟩

/-- The comparator `(a, b) => b.amount - a.amount`: `a` sorts before `b`
when `b.amount - a.amount ≤ 0`, i.e. descending by amount. -/
def costItemGE (a b : CostItem) : Prop := b.amount ≤ a.amount

instance : DecidableRel costItemGE := fun a b =>
  inferInstanceAs (Decidable (b.amount ≤ a.amount))

instance : IsTotal CostItem costItemGE := ⟨fun a b => le_total b.amount a.amount⟩

instance : IsTrans CostItem costItemGE := ⟨fun _ _ _ h1 h2 => le_trans h2 h1⟩

/-- `costItems.sort((a, b) => b.amount - a.amount)`
(src/wayfare/static/app.js line 402). -/
def sortedCostItems (c : Costs) : List CostItem :=
  (costItems c).insertionSort costItemGE

/-- `costItems.reduce((sum, item) => sum + item.amount, 0)`
(src/wayfare/static/app.js line 425). -/
def sumOfCosts (c : Costs) : ℚ :=
  (costItems c).foldl (fun s i => s + i.amount) 0

/-- `const totalCost = costs.total_cost || sumOfCosts`
(src/wayfare/static/app.js line 426): a missing, `null`, `NaN` or zero
`total_cost` is falsy, so the sum of the itemized costs is used instead. -/
def totalCostDisplayed (c : Costs) : ℚ :=
  match c.total_cost with
  | none => sumOfCosts c
  | some t => if t = 0 then sumOfCosts c else t

/-- `const unexplainedCosts = totalCost - sumOfCosts`
(src/wayfare/static/app.js line 429). -/
def unexplainedCosts (c : Costs) : ℚ :=
  totalCostDisplayed c - sumOfCosts c

/-- The "Additional Costs" entry of the rendered breakdown
(src/wayfare/static/app.js lines 441-447): shown, with value
`unexplainedCosts`, exactly when `unexplainedCosts > 0`. -/
def unexplainedEntry (c : Costs) : Option ℚ :=
  if 0 < unexplainedCosts c then some (unexplainedCosts c) else none

/-- The `Total mass` journey-detail line of `displayCostDetails`
(src/wayfare/static/app.js lines 412-415):
`totalMass = baseMass + passengerMass * passengers` with the constants
`baseMass = 1200` kg and `passengerMass = 75` kg. -/
def totalMassKg (passengers : ℤ) : ℚ := 1200 + 75 * passengers

/-! ### Share link (`shareRoute`, src/wayfare/static/app.js lines 124-169) -/

/-- A geographic coordinate pair as carried by segments and stops. -/
structure Location where
  latitude : ℚ
  longitude : ℚ
deriving DecidableEq, Repr

/-- One route segment (only its endpoint locations are read by
`shareRoute`). -/
structure Segment where
  start_location : Location
  end_location : Location
deriving Repr

/-- One stop of the response (only its location is read by `shareRoute`). -/
structure Stop where
  location : Location
deriving Repr

/-- The route of the response (only its segment list is read by
`shareRoute`). -/
structure Route where
  segments : List Segment
deriving Repr

/-- The JS template `` `${l.latitude},${l.longitude}` ``. -/
def coordString (l : Location) : String :=
  toString l.latitude ++ "," ++ toString l.longitude

/-- The `waypoints` array built by `shareRoute` before the `shift`/`pop`
split (src/wayfare/static/app.js lines 132-146): origin coordinate, one
coordinate per stop in order, destination coordinate.  With an empty
segment list the JS code would fault on `route.segments[0]`; that case is
modelled as the empty list and excluded by the claims' non-empty-route
hypothesis. -/
def shareWaypointList (route : Route) (stops : List Stop) : List String :=
  match route.segments with
  | [] => []
  | first :: rest =>
    [coordString first.start_location]
      ++ stops.map (fun s => coordString s.location)
      ++ [coordString ((first :: rest).getLast (List.cons_ne_nil first rest)).end_location]

/-- `const origin = waypoints.shift()` (src/wayfare/static/app.js line 149). -/
def shareOrigin (route : Route) (stops : List Stop) : String :=
  (shareWaypointList route stops).headD ""

/-- `const destination = waypoints.pop()` after the shift
(src/wayfare/static/app.js line 150). -/
def shareDestination (route : Route) (stops : List Stop) : String :=
  ((shareWaypointList route stops).drop 1).getLastD ""

/-- The intermediate waypoints remaining after `shift` and `pop`. -/
def shareIntermediate (route : Route) (stops : List Stop) : List String :=
  ((shareWaypointList route stops).drop 1).dropLast

/-- `waypointsParam` (src/wayfare/static/app.js lines 151-153): empty
string when no intermediate waypoints remain, otherwise
`&waypoints=` followed by the `|`-joined list. -/
def waypointsParam (route : Route) (stops : List Stop) : String :=
  let mid := shareIntermediate route stops
  if mid.isEmpty then "" else "&waypoints=" ++ String.intercalate "|" mid

/-- The `origin=...&destination=...` portion of the built Google Maps URL
(src/wayfare/static/app.js line 165, between `api=1&` and `&travelmode=`). -/
def shareParamsString (route : Route) (stops : List Stop) : String :=
  "origin=" ++ shareOrigin route stops
    ++ "&destination=" ++ shareDestination route stops
    ++ waypointsParam route stops

/-! ### Sample inputs used by witnesses -/

/-- A form whose fields are all empty, with the car option selected. -/
def emptyCarForm : FormInputs :=
  { transportationType := .car
    carModel := ""
    engineVolume := none
    fuelConsumption := none
    fuelType := ""
    tankCapacity := none
    initialFuel := none
    engineCC := none
    motorcycleFuelConsumption := none
    motorcycleTankCapacity := none
    motorcycleInitialFuel := none
    motorcycleFuelType := ""
    passengers := 1 }

/-- The empty form with the motorcycle option selected. -/
def emptyMotorcycleForm : FormInputs :=
  { emptyCarForm with transportationType := .motorcycle }

/-- The empty form with the bicycle option selected. -/
def bicycleForm : FormInputs :=
  { emptyCarForm with transportationType := .bicycle }

/-! ### Theorems -/

/-- C1: for a car profile with resolved tank capacity `T > 0`, initial fuel
`F0 ≥ 0` and consumption `C > 0` and total distance `D` km, the computed
number of refueling stops is `max(0, ⌈(D/100·C − F0)/T⌉)`; for a motorcycle
the same formula holds with total fuel needed `D / fuelEconomyKmPerL`. -/
theorem refuelingStops_aggregate_formula (f : FormInputs) (D : ℚ)
    (hTc : 0 < orDefault f.tankCapacity 50.0)
    (hFc : 0 ≤ orDefault f.initialFuel 25.0)
    (hCc : 0 < orDefault f.fuelConsumption 11.0)
    (hTm : 0 < orDefault f.motorcycleTankCapacity 10.0)
    (hFm : 0 ≤ orDefault f.motorcycleInitialFuel 5.0) :
    (f.transportationType = .car →
      calculateRefuelingStops f D .car =
        max 0 ⌈(D / 100 * orDefault f.fuelConsumption 11.0
          - orDefault f.initialFuel 25.0) / orDefault f.tankCapacity 50.0⌉) ∧
    (f.transportationType = .motorcycle →
      calculateRefuelingStops f D .motorcycle =
        max 0 ⌈(D / orDefault f.motorcycleFuelConsumption 45
          - orDefault f.motorcycleInitialFuel 5.0) / orDefault f.motorcycleTankCapacity 10.0⌉) := by
  constructor
  · intro h
    simp only [calculateRefuelingStops, getVehicleSpecifications, h,
      calculateFuelNeeded, getCarSpecifications, VehicleSpecifications.initial_fuel,
      VehicleSpecifications.tank_capacity, neg_sub]
  · intro h
    simp only [calculateRefuelingStops, getVehicleSpecifications, h,
      calculateFuelNeeded, getMotorcycleSpecifications, VehicleSpecifications.initial_fuel,
      VehicleSpecifications.tank_capacity, neg_sub]

/-- Witness for C1 at the default car form and `D = 500`. -/
theorem refuelingStops_aggregate_formula_witness :
    (emptyCarForm.transportationType = .car →
      calculateRefuelingStops emptyCarForm 500 .car =
        max 0 ⌈((500 : ℚ) / 100 * orDefault emptyCarForm.fuelConsumption 11.0
          - orDefault emptyCarForm.initialFuel 25.0) / orDefault emptyCarForm.tankCapacity 50.0⌉) ∧
    (emptyCarForm.transportationType = .motorcycle →
      calculateRefuelingStops emptyCarForm 500 .motorcycle =
        max 0 ⌈((500 : ℚ) / orDefault emptyCarForm.motorcycleFuelConsumption 45
          - orDefault emptyCarForm.motorcycleInitialFuel 5.0)
            / orDefault emptyCarForm.motorcycleTankCapacity 10.0⌉) :=
  refuelingStops_aggregate_formula emptyCarForm 500
    (by norm_num [orDefault, emptyCarForm]) (by norm_num [orDefault, emptyCarForm])
    (by norm_num [orDefault, emptyCarForm]) (by norm_num [orDefault, emptyCarForm])
    (by norm_num [orDefault, emptyCarForm])

/-- C2: whenever the resolved initial fuel covers the whole route's fuel
need (and the tank capacity is positive), the computed number of refueling
stops is exactly 0, and it is never negative; the same holds for
`calculateMotorcycleRoute` of src/unnamed/part_001 (whose fuel need is
`100 / fuelEconomy` for its hard-coded 100 km distance). -/
theorem refuelingStops_zero_boundary (f : FormInputs) (D : ℚ) (ty : TransportType)
    (cc E T F0 : ℚ) (ft : String) :
    (∀ specs, getVehicleSpecifications f = some specs → 0 < specs.tank_capacity →
      calculateFuelNeeded f D ty ≤ specs.initial_fuel →
      calculateRefuelingStops f D ty = 0) ∧
    0 ≤ calculateRefuelingStops f D ty ∧
    (0 < T → 100 / E ≤ F0 → (calculateMotorcycleRoute cc E T F0 ft).refuelingStops = 0) ∧
    0 ≤ (calculateMotorcycleRoute cc E T F0 ft).refuelingStops := by
  refine ⟨?_, ?_, ?_, ?_⟩
  · intro specs hspecs hT hle
    simp only [calculateRefuelingStops, hspecs]
    have h1 : -(specs.initial_fuel - calculateFuelNeeded f D ty) / specs.tank_capacity ≤ 0 :=
      div_nonpos_of_nonpos_of_nonneg (by linarith) hT.le
    exact max_eq_left (Int.ceil_le.mpr (by exact_mod_cast h1))
  · rcases hs : getVehicleSpecifications f with _ | specs <;>
      simp [calculateRefuelingStops, hs, le_max_left]
  · intro hT hle
    simp only [calculateMotorcycleRoute]
    have h1 : -(F0 - 100 / E) / T ≤ 0 :=
      div_nonpos_of_nonpos_of_nonneg (by linarith) hT.le
    exact max_eq_left (Int.ceil_le.mpr (by exact_mod_cast h1))
  · exact le_max_left 0 _

/-- Witness for C2 at the default car form, `D = 100`, and the default
motorcycle parameters. -/
theorem refuelingStops_zero_boundary_witness :
    calculateRefuelingStops emptyCarForm 100 .car = 0 ∧
    (0 : ℤ) ≤ calculateRefuelingStops emptyCarForm 100 .car ∧
    (calculateMotorcycleRoute 125 45 10 5 "92").refuelingStops = 0 ∧
    (0 : ℤ) ≤ (calculateMotorcycleRoute 125 45 10 5 "92").refuelingStops := by
  obtain ⟨h1, h2, h3, h4⟩ :=
    refuelingStops_zero_boundary emptyCarForm 100 .car 125 45 10 5 "92"
  refine ⟨h1 _ rfl ?_ ?_, h2, h3 (by norm_num) (by norm_num), h4⟩
  · norm_num [VehicleSpecifications.tank_capacity, getCarSpecifications,
      orDefault, emptyCarForm]
  · norm_num [VehicleSpecifications.initial_fuel, getCarSpecifications,
      calculateFuelNeeded, orDefault, emptyCarForm]

/-- C3: per-segment fuel need is `(d/100)·C` for cars, `d/E` for
motorcycles, `0` for every other transport type, and is non-negative for
every non-negative distance (given the profile invariants `C ≥ 0`,
`E > 0`). -/
theorem calculateFuelNeeded_formulas (f : FormInputs) (d : ℚ) (ty : TransportType)
    (hd : 0 ≤ d)
    (hC : 0 ≤ orDefault f.fuelConsumption 11.0)
    (hE : 0 < orDefault f.motorcycleFuelConsumption 45) :
    calculateFuelNeeded f d .car = d / 100 * orDefault f.fuelConsumption 11.0 ∧
    calculateFuelNeeded f d .motorcycle = d / orDefault f.motorcycleFuelConsumption 45 ∧
    (ty ≠ .car → ty ≠ .motorcycle → calculateFuelNeeded f d ty = 0) ∧
    0 ≤ calculateFuelNeeded f d ty := by
  refine ⟨rfl, rfl, ?_, ?_⟩
  · intro h1 h2
    cases ty <;> simp_all [calculateFuelNeeded]
  · cases ty
    case car => exact mul_nonneg (div_nonneg hd (by norm_num)) hC
    case motorcycle => exact div_nonneg hd hE.le
    all_goals exact le_refl 0

/-- Witness for C3 at the default car form, `d = 300`, `ty = walking`. -/
theorem calculateFuelNeeded_formulas_witness :
    calculateFuelNeeded emptyCarForm 300 .car =
      300 / 100 * orDefault emptyCarForm.fuelConsumption 11.0 ∧
    calculateFuelNeeded emptyCarForm 300 .motorcycle =
      300 / orDefault emptyCarForm.motorcycleFuelConsumption 45 ∧
    calculateFuelNeeded emptyCarForm 300 .walking = 0 ∧
    0 ≤ calculateFuelNeeded emptyCarForm 300 .walking := by
  obtain ⟨h1, h2, h3, h4⟩ :=
    calculateFuelNeeded_formulas emptyCarForm 300 .walking
      (by norm_num) (by norm_num [orDefault, emptyCarForm])
      (by norm_num [orDefault, emptyCarForm])
  exact ⟨h1, h2, h3 (by decide) (by decide), h4⟩

/-- C8: the per-segment fuel computation ignores the passenger count (and
reads no mass field at all: `base_mass` and `passenger_mass` are constants
never consulted by it); mass enters only the informational journey detail
`totalMass = 1200 + 75 · passengers`. -/
theorem fuelNeeded_independent_of_mass (f : FormInputs) (p : ℤ) (d : ℚ)
    (ty : TransportType) :
    calculateFuelNeeded { f with passengers := p } d ty = calculateFuelNeeded f d ty ∧
    totalMassKg p = 1200 + 75 * p :=
  ⟨by cases ty <;> rfl, rfl⟩

/-- C9: for a selected transport type other than car and motorcycle,
`getVehicleSpecifications` yields no specification and
`calculateRefuelingStops` returns 0. -/
theorem nonFueled_zero_stops (f : FormInputs) (d : ℚ) (ty : TransportType)
    (hty : f.transportationType = ty) (h1 : ty ≠ .car) (h2 : ty ≠ .motorcycle) :
    getVehicleSpecifications f = none ∧ calculateRefuelingStops f d ty = 0 := by
  have hspec : getVehicleSpecifications f = none := by
    unfold getVehicleSpecifications
    rw [hty]
    cases ty <;> simp_all
  exact ⟨hspec, by simp [calculateRefuelingStops, hspec]⟩

/-- Witness for C9 at the bicycle form, `d = 100`. -/
theorem nonFueled_zero_stops_witness :
    getVehicleSpecifications bicycleForm = none ∧
    calculateRefuelingStops bicycleForm 100 .bicycle = 0 :=
  nonFueled_zero_stops bicycleForm 100 .bicycle rfl (by decide) (by decide)

/-- Every `costTypes` key is listed in `allCostCategories`. -/
theorem mem_allCostCategories (k : CostCategory) : k ∈ allCostCategories := by
  cases k <;> simp [allCostCategories]

/-- C7: the displayed cost breakdown contains exactly the known cost
categories whose supplied value is present and non-zero (`total_cost`,
`currency` and the informational `fuel_consumption` / `refueling_stops`
fields are not `costTypes` keys), and it is sorted descending by amount. -/
theorem costBreakdown_contents_and_order (c : Costs) :
    (∀ item : CostItem, item ∈ sortedCostItems c ↔
      c.get item.category = some item.amount ∧ item.amount ≠ 0) ∧
    List.Sorted costItemGE (sortedCostItems c) := by
  constructor
  · intro item
    rw [sortedCostItems, List.mem_insertionSort]
    constructor
    · intro hmem
      obtain ⟨k, _, hf⟩ := List.mem_filterMap.mp hmem
      revert hf
      cases hv : c.get k with
      | none => simp
      | some v =>
        by_cases h0 : v = 0
        · simp [h0]
        · simp only [h0, if_false]
          intro hitem
          cases hitem
          exact ⟨hv, h0⟩
    · rintro ⟨hget, hne⟩
      refine List.mem_filterMap.mpr ⟨item.category, mem_allCostCategories _, ?_⟩
      rw [hget]
      simp [hne]
  · exact List.sorted_insertionSort costItemGE (costItems c)

/-- Witness for C7 at a two-category cost object. -/
theorem costBreakdown_contents_and_order_witness :
    ((⟨.fuel_cost, 100⟩ : CostItem) ∈
        sortedCostItems { fuel_cost := some 100, food_cost := some 30 } ↔
      Costs.get { fuel_cost := some 100, food_cost := some 30 } .fuel_cost = some 100 ∧
        (100 : ℚ) ≠ 0) ∧
    List.Sorted costItemGE
      (sortedCostItems { fuel_cost := some 100, food_cost := some 30 }) :=
  ⟨(costBreakdown_contents_and_order _).1 _, (costBreakdown_contents_and_order _).2⟩

/-- C10: an absent, `null`, or exactly-zero authoritative `total_cost` is
falsy, so the displayed total falls back to the sum of the itemized
amounts; a supplied total of exactly 0 is never honored. -/
theorem totalCost_truthiness_fallback (c : Costs) :
    (c.total_cost = none → totalCostDisplayed c = sumOfCosts c) ∧
    (c.total_cost = some 0 → totalCostDisplayed c = sumOfCosts c) ∧
    (c.total_cost = some 0 → sumOfCosts c ≠ 0 → totalCostDisplayed c ≠ 0) := by
  refine ⟨?_, ?_, ?_⟩
  · intro h
    simp [totalCostDisplayed, h]
  · intro h
    simp [totalCostDisplayed, h]
  · intro h hne
    simpa [totalCostDisplayed, h] using hne

/-- Witness for C10 at a cost object with items summing to 100 and a
supplied total of exactly 0. -/
theorem totalCost_truthiness_fallback_witness :
    totalCostDisplayed { fuel_cost := some 30, ticket_cost := some 70, total_cost := some 0 } =
      sumOfCosts { fuel_cost := some 30, ticket_cost := some 70, total_cost := some 0 } ∧
    totalCostDisplayed { fuel_cost := some 30, ticket_cost := some 70, total_cost := some 0 } ≠ 0 := by
  refine ⟨(totalCost_truthiness_fallback _).2.1 rfl,
    (totalCost_truthiness_fallback _).2.2 rfl ?_⟩
  norm_num [sumOfCosts, costItems, allCostCategories, Costs.get, List.filterMap_cons]

/-- A cost object with a supplied `total_cost` of exactly 0 and a negative
itemized amount. -/
def costsWithZeroTotal : Costs := { fuel_cost := some (-10), total_cost := some 0 }

/-- C4 counterexample: the authoritative total 0 exceeds the itemized sum
−10, yet no unexplained-cost entry is shown — `costs.total_cost ||
sumOfCosts` treats the supplied 0 as absent, so the difference of 10 is
discarded. -/
theorem costUnexplained_counterexample :
    costsWithZeroTotal.total_cost = some 0 ∧
    sumOfCosts costsWithZeroTotal < 0 ∧
    unexplainedEntry costsWithZeroTotal = none := by
  have hsum : sumOfCosts costsWithZeroTotal = -10 := by
    norm_num [sumOfCosts, costItems, allCostCategories, Costs.get, List.filterMap_cons, costsWithZeroTotal]
  refine ⟨rfl, by rw [hsum]; norm_num, ?_⟩
  have htot : totalCostDisplayed costsWithZeroTotal = sumOfCosts costsWithZeroTotal := rfl
  unfold unexplainedEntry unexplainedCosts
  rw [htot, if_neg (by norm_num)]

/-- C4 amended: whenever a supplied authoritative total is nonzero and
exceeds the sum of the itemized category amounts, the breakdown exposes
an unexplained-cost entry equal to the difference. -/
theorem costUnexplained_amended (c : Costs) (t : ℚ)
    (ht : c.total_cost = some t) (ht0 : t ≠ 0) (hgt : sumOfCosts c < t) :
    unexplainedEntry c = some (t - sumOfCosts c) := by
  have htot : totalCostDisplayed c = t := by
    simp [totalCostDisplayed, ht, ht0]
  unfold unexplainedEntry unexplainedCosts
  rw [htot, if_pos (sub_pos.mpr hgt)]

/-- Witness for C4's amended claim at the spec's example: total 120,
itemized sum 100, unexplained entry 20. -/
theorem costUnexplained_amended_witness :
    unexplainedEntry { fuel_cost := some 100, total_cost := some 120 } = some 20 := by
  have hsum : sumOfCosts { fuel_cost := some 100, total_cost := some 120 } = 100 := by
    norm_num [sumOfCosts, costItems, allCostCategories, Costs.get, List.filterMap_cons]
  have h := costUnexplained_amended { fuel_cost := some 100, total_cost := some 120 } 120
    rfl (by norm_num) (by rw [hsum]; norm_num)
  rw [h, hsum]
  norm_num

/-- A form providing a negative tank capacity. -/
def negativeTankForm : FormInputs := { emptyCarForm with tankCapacity := some (-5) }

/-- C6 counterexample: a provided negative tank capacity is not rejected —
`getCarSpecifications` resolves successfully and carries the negative value
through; no validation of any numeric field exists in the code. -/
theorem carSpec_no_validation_counterexample :
    (getCarSpecifications negativeTankForm).tank_capacity = -5 ∧
    (getCarSpecifications negativeTankForm).tank_capacity < 0 := by
  constructor <;>
    norm_num [getCarSpecifications, orDefault, negativeTankForm, emptyCarForm]

/-- C6 amended: vehicle-profile resolution never fails and performs no
validation: a provided nonzero value (negative values included) is used
unchanged, an absent, unparseable, or zero value falls back to the
documented default, and an empty spec resolves to exactly the documented
defaults. -/
theorem vehicleSpec_resolution_amended (f : FormInputs) (v : ℚ) (hv : v ≠ 0) :
    (getCarSpecifications { f with tankCapacity := none }).tank_capacity = 50.0 ∧
    (getCarSpecifications { f with tankCapacity := some 0 }).tank_capacity = 50.0 ∧
    (getCarSpecifications { f with initialFuel := some 0 }).initial_fuel = 25.0 ∧
    (getMotorcycleSpecifications
      { f with motorcycleTankCapacity := some 0 }).tank_capacity = 10.0 ∧
    (getCarSpecifications { f with tankCapacity := some v }).tank_capacity = v ∧
    (getCarSpecifications { f with initialFuel := some v }).initial_fuel = v ∧
    (getCarSpecifications { f with fuelConsumption := some v }).fuel_consumption = v ∧
    (getMotorcycleSpecifications { f with motorcycleTankCapacity := some v }).tank_capacity = v ∧
    getCarSpecifications emptyCarForm =
      { model := "Standard 1.6L", engine_volume := 1.6, fuel_consumption := 11.0,
        fuel_type := "gasoline", tank_capacity := 50.0, initial_fuel := 25.0,
        base_mass := 1200.0, passenger_mass := 75.0 } ∧
    getMotorcycleSpecifications emptyMotorcycleForm =
      { engine_cc := 125, fuel_economy := 45, tank_capacity := 10.0, initial_fuel := 5.0,
        fuel_type := "92", base_mass := 150.0, passenger_mass := 75.0 } := by
  refine ⟨rfl, ?_, ?_, ?_, ?_, ?_, ?_, ?_, rfl, rfl⟩ <;>
    simp [getCarSpecifications, getMotorcycleSpecifications, orDefault, hv]

/-- Witness for C6's amended claim at `v = -5`: a provided zero falls back
to the default, a provided negative value is retained, and the empty spec
resolves to the documented defaults. -/
theorem vehicleSpec_resolution_amended_witness :
    (getCarSpecifications { emptyCarForm with tankCapacity := some 0 }).tank_capacity = 50.0 ∧
    (getCarSpecifications { emptyCarForm with tankCapacity := some (-5) }).tank_capacity = -5 ∧
    getCarSpecifications emptyCarForm =
      { model := "Standard 1.6L", engine_volume := 1.6, fuel_consumption := 11.0,
        fuel_type := "gasoline", tank_capacity := 50.0, initial_fuel := 25.0,
        base_mass := 1200.0, passenger_mass := 75.0 } := by
  obtain ⟨_, h2, _, _, h5, _, _, _, h9, _⟩ :=
    vehicleSpec_resolution_amended emptyCarForm (-5) (by norm_num)
  exact ⟨h2, h5, h9⟩

/-- C5: the waypoint sequence built by `shareRoute` is the origin
coordinate, the stop coordinates in route order, then the destination
coordinate; the `shift`/`pop` split makes the origin the first element and
the destination the last, the intermediate waypoints are exactly the stop
coordinates, and the `waypoints` parameter is omitted when there are no
stops. -/
theorem shareRoute_waypoints (route : Route) (stops : List Stop)
    (first : Segment) (rest : List Segment) (hseg : route.segments = first :: rest) :
    shareWaypointList route stops =
      [coordString first.start_location]
        ++ stops.map (fun s => coordString s.location)
        ++ [coordString ((first :: rest).getLast (List.cons_ne_nil first rest)).end_location] ∧
    shareOrigin route stops = coordString first.start_location ∧
    shareDestination route stops =
      coordString ((first :: rest).getLast (List.cons_ne_nil first rest)).end_location ∧
    shareIntermediate route stops = stops.map (fun s => coordString s.location) ∧
    (stops = [] → waypointsParam route stops = "") := by
  have hw : shareWaypointList route stops =
      [coordString first.start_location]
        ++ stops.map (fun s => coordString s.location)
        ++ [coordString ((first :: rest).getLast (List.cons_ne_nil first rest)).end_location] := by
    simp only [shareWaypointList, hseg]
  refine ⟨hw, ?_, ?_, ?_, ?_⟩
  · rw [shareOrigin, hw]
    rfl
  · rw [shareDestination, hw]
    simp
  · rw [shareIntermediate, hw]
    simp only [List.cons_append, List.drop_succ_cons, List.drop_zero]
    exact List.dropLast_concat ..
  · intro hstops
    rw [waypointsParam]
    have : shareIntermediate route stops = [] := by
      rw [shareIntermediate, hw, hstops]
      simp
    rw [this]
    rfl

/-- The one-segment route of the spec's share-link example. -/
def exampleRoute : Route := ⟨[⟨⟨1, 2⟩, ⟨5, 6⟩⟩]⟩

/-- The single refueling stop of the spec's share-link example. -/
def exampleStops : List Stop := [⟨⟨3, 4⟩⟩]

/-- Witness for C5: origin `(1,2)`, one stop `(3,4)`, destination `(5,6)`
produce exactly `origin=1,2&destination=5,6&waypoints=3,4`. -/
theorem shareRoute_waypoints_witness :
    shareOrigin exampleRoute exampleStops = coordString ⟨1, 2⟩ ∧
    shareDestination exampleRoute exampleStops = coordString ⟨5, 6⟩ ∧
    shareIntermediate exampleRoute exampleStops = [coordString ⟨3, 4⟩] ∧
    shareParamsString exampleRoute exampleStops =
      "origin=1,2&destination=5,6&waypoints=3,4" := by
  obtain ⟨_, h2, h3, h4, _⟩ :=
    shareRoute_waypoints exampleRoute exampleStops ⟨⟨1, 2⟩, ⟨5, 6⟩⟩ [] rfl
  refine ⟨h2, h3, by rw [h4]; rfl, ?_⟩
  rw [shareParamsString, h2, h3, waypointsParam, h4]
  decide

end Wayfare
